import Mathlib

/-!
Shallow embedding of the service-worker caching engine of the native-pwa
repository.

The main variant (src/unnamed/part_000, lines 1-468) defines three caching
strategies (cache-first, network-first, stale-while-revalidate), a request
classifier used by the fetch listener, an offline-page generator, and a
second fetch listener for the share target.  A second variant (src/sw.js)
has a single inline cache-first handler.  Asynchronous JS is modelled by
explicit state passing: each strategy takes the cache storage and the
already-settled outcome of the (single) network fetch, and returns the
response outcome, the updated cache storage, and how many network fetches
it performed.
-/

/-- An HTTP response: status, statusText, headers and body, as used by the
service worker (`new Response(body, \x7bstatus, statusText, headers\x7d)`). -/
structure Response where
  status : Nat
  statusText : String
  headers : List (String × String)
  body : String
deriving DecidableEq

/-- The settled outcome of `fetch(request)`: a response (of any status), or a
network error (rejection). -/
inductive NetResult where
  | ok (r : Response)
  | err (e : String)
deriving DecidableEq

/-- An intercepted request.  `new URL(request.url)` is modelled by carrying the
URL components (scheme, host, path) directly; `request.url` is rebuilt from
them.  `destination` models `request.destination`, `headers` the request
headers (used only by the sw.js variant's `accept` check). -/
structure Request where
  method : String
  scheme : String
  host : String
  path : String
  destination : String
  headers : List (String × String)
deriving DecidableEq

/-- `request.url` as a string. -/
def Request.url (r : Request) : String :=
  r.scheme ++ "://" ++ r.host ++ r.path

/-- `url.protocol` (the scheme with a trailing colon). -/
def Request.protocol (r : Request) : String :=
  r.scheme ++ ":"

/-- `url.origin` (scheme and host). -/
def Request.origin (r : Request) : String :=
  r.scheme ++ "://" ++ r.host

/-- One named cache: an association list from request URL (the cache key) to
the stored response. -/
abbrev Cache := List (String × Response)

/-- The CacheStorage: the named caches in creation order (`caches.match`
consults them in this order). -/
abbrev CacheStorage := List (String × Cache)

/-- `cache.match(key)` on a single cache: first entry with the given key. -/
def cacheLookup (c : Cache) (k : String) : Option Response :=
  match c with
  | [] => none
  | (k', r) :: rest => if k' = k then some r else cacheLookup rest k

/-- `caches.match(request)`: searches ALL caches in creation order, returning
the first match.  Note: not restricted to any particular named cache. -/
def cachesMatch (cs : CacheStorage) (k : String) : Option Response :=
  match cs with
  | [] => none
  | (_, c) :: rest =>
    match cacheLookup c k with
    | some r => some r
    | none => cachesMatch rest k

/-- `cache.put(key, r)` on a single cache: overwrite the entry for `key` if
present, else append it. -/
def cachePutIn (c : Cache) (k : String) (r : Response) : Cache :=
  match c with
  | [] => [(k, r)]
  | (k', r') :: rest =>
    if k' = k then (k, r) :: rest else (k', r') :: cachePutIn rest k r

/-- `caches.open(name).then(cache => cache.put(key, r))`: open (creating the
named cache at the end if absent) and put. -/
def cachesOpenPut (cs : CacheStorage) (name k : String) (r : Response) :
    CacheStorage :=
  match cs with
  | [] => [(name, [(k, r)])]
  | (n, c) :: rest =>
    if n = name then (n, cachePutIn c k r) :: rest
    else (n, c) :: cachesOpenPut rest name k r

/-- Lookup of a key in one named store (used to state what a strategy wrote
into the store it was given). -/
def storeLookup (cs : CacheStorage) (name k : String) : Option Response :=
  match cs with
  | [] => none
  | (n, c) :: rest => if n = name then cacheLookup c k else storeLookup rest name k

/-- `headers.get(name)` on a header list. -/
def headerGet (hs : List (String × String)) (name : String) : Option String :=
  match hs with
  | [] => none
  | (n, v) :: rest => if n = name then some v else headerGet rest name

/-- Whether the character list `t` is a prefix of `s` (by characters). -/
def charsLead : List Char → List Char → Bool
  | [], _ => true
  | _ :: _, [] => false
  | a :: as, b :: bs => a = b && charsLead as bs

/-- Whether the character list `t` occurs inside `s`. -/
def charsContain (s t : List Char) : Bool :=
  match s with
  | [] => charsLead t []
  | _ :: rest => charsLead t s || charsContain rest t

/-- `s.includes(t)` (substring containment) on strings. -/
def strContains (s t : String) : Bool :=
  charsContain s.data t.data

/-- `s.startsWith(t)` on strings (by characters, so that it evaluates in the
kernel). -/
def strStartsWith (s t : String) : Bool :=
  charsLead t.data s.data

/-- `s.endsWith(t)` on strings (by characters). -/
def strEndsWith (s t : String) : Bool :=
  charsLead t.data.reverse s.data.reverse

/-- Cache-name constants of the main variant (part_000, lines 2-4). -/
def CACHE_NAME : String := "portfolio-v1.0.1"

/-- Static-cache name of the main variant. -/
def STATIC_CACHE : String := "static-v1.0.1"

/-- Dynamic-cache name of the main variant. -/
def DYNAMIC_CACHE : String := "dynamic-v1.0.1"

/-- The HTML document produced by `createOfflinePage` (part_000, lines
231-294).  Braces of the inline CSS are written `\x7b`/`\x7d` and apostrophes
`\x27`; the text is otherwise the source's template literal. -/
def offlinePageHtml : String :=
  "
        <!DOCTYPE html>
        <html lang=\"en\">
        <head>
            <meta charset=\"UTF-8\">
            <meta name=\"viewport\" content=\"width=device-width, initial-scale=1.0\">
            <title>Offline - John Doe Portfolio</title>
            <style>
                body \x7b
                    font-family: -apple-system, BlinkMacSystemFont, \x27Segoe UI\x27, Roboto, sans-serif;
                    background: linear-gradient(135deg, #667eea 0%, #764ba2 100%);
                    color: white;
                    height: 100vh;
                    margin: 0;
                    display: flex;
                    align-items: center;
                    justify-content: center;
                    text-align: center;
                \x7d
                .offline-content \x7b
                    max-width: 400px;
                    padding: 2rem;
                \x7d
                .offline-icon \x7b
                    font-size: 4rem;
                    margin-bottom: 1rem;
                \x7d
                h1 \x7b
                    margin-bottom: 1rem;
                    font-size: 2rem;
                \x7d
                p \x7b
                    margin-bottom: 2rem;
                    opacity: 0.9;
                \x7d
                .retry-button \x7b
                    background: rgba(255, 255, 255, 0.2);
                    border: 2px solid white;
                    color: white;
                    padding: 0.8rem 2rem;
                    border-radius: 50px;
                    cursor: pointer;
                    font-size: 1rem;
                    font-weight: 600;
                    transition: all 0.3s ease;
                \x7d
                .retry-button:hover \x7b
                    background: white;
                    color: #667eea;
                \x7d
            </style>
        </head>
        <body>
            <div class=\"offline-content\">
                <div class=\"offline-icon\">🔌</div>
                <h1>You\x27re Offline</h1>
                <p>This page isn\x27t available offline. Please check your internet connection and try again.</p>
                <button class=\"retry-button\" onclick=\"window.location.reload()\">
                    Try Again
                </button>
            </div>
        </body>
        </html>
    "

/-- `createOfflinePage()` (part_000, lines 229-302): a `new Response(html,
\x7bheaders: \x7b"Content-Type": "text/html", "Cache-Control": "no-cache"\x7d\x7d)`.
Status defaults to 200 and statusText to the empty string. -/
def createOfflinePage : Response :=
  { status := 200
    statusText := ""
    headers := [("Content-Type", "text/html"), ("Cache-Control", "no-cache")]
    body := offlinePageHtml }

deriving instance DecidableEq for Except

/-- What a strategy produced: the settled response outcome (`Except.error`
models a rejected promise, i.e. a re-thrown error), the cache storage after
any write it performed (fire-and-forget writes included, since they do land),
and the number of network fetches it issued. -/
structure StrategyResult where
  resp : Except String Response
  caches : CacheStorage
  netCalls : Nat
deriving DecidableEq

/-- `cacheFirstStrategy(request, cacheName)` (part_000, lines 118-147).
The lookup is `caches.match(request)` — over ALL caches, not just
`cacheName`.  On a hit the cached response is returned with no fetch.  On a
miss the fetch runs; a 200 response is written into `cacheName` (via
`caches.open(cacheName)` then `cache.put`) and every successful response is
returned as-is.  If the fetch rejects, a navigation request (`destination ===
"document"`) gets `createOfflinePage()`, anything else a synthesized 503
`new Response("Offline", \x7bstatus: 503, statusText: "Service Unavailable"\x7d)`. -/
def cacheFirstStrategy (request : Request) (cacheName : String)
    (cs : CacheStorage) (net : NetResult) : StrategyResult :=
  match cachesMatch cs request.url with
  | some cachedResponse => ⟨.ok cachedResponse, cs, 0⟩
  | none =>
    match net with
    | .ok networkResponse =>
      if networkResponse.status = 200 then
        ⟨.ok networkResponse,
          cachesOpenPut cs cacheName request.url networkResponse, 1⟩
      else
        ⟨.ok networkResponse, cs, 1⟩
    | .err _ =>
      if request.destination = "document" then
        ⟨.ok createOfflinePage, cs, 1⟩
      else
        ⟨.ok ⟨503, "Service Unavailable", [], "Offline"⟩, cs, 1⟩

/-- `networkFirstStrategy(request, cacheName)` (part_000, lines 150-170).
Fetch first; a 200 response is written through to `cacheName` and every
successful response is returned.  If the fetch rejects, `caches.match` (all
caches) is consulted; a hit is returned, otherwise the error is re-thrown. -/
def networkFirstStrategy (request : Request) (cacheName : String)
    (cs : CacheStorage) (net : NetResult) : StrategyResult :=
  match net with
  | .ok networkResponse =>
    if networkResponse.status = 200 then
      ⟨.ok networkResponse,
        cachesOpenPut cs cacheName request.url networkResponse, 1⟩
    else
      ⟨.ok networkResponse, cs, 1⟩
  | .err e =>
    match cachesMatch cs request.url with
    | some cachedResponse => ⟨.ok cachedResponse, cs, 1⟩
    | none => ⟨.error e, cs, 1⟩

/-- `staleWhileRevalidateStrategy(request, cacheName)` (part_000, lines
173-191).  `caches.match` runs first; the fetch is always initiated.  A 200
network response is written to `cacheName` in the background regardless of
which response is returned.  A cached response is returned as-is; with no
cached response the network response is returned, or `createOfflinePage()` if
the fetch rejected (`cachedResponse || createOfflinePage()` with
`cachedResponse` undefined). -/
def staleWhileRevalidateStrategy (request : Request) (cacheName : String)
    (cs : CacheStorage) (net : NetResult) : StrategyResult :=
  let cachedResponse := cachesMatch cs request.url
  let updated : CacheStorage :=
    match net with
    | .ok networkResponse =>
      if networkResponse.status = 200 then
        cachesOpenPut cs cacheName request.url networkResponse
      else cs
    | .err _ => cs
  match cachedResponse with
  | some r => ⟨.ok r, updated, 1⟩
  | none =>
    match net with
    | .ok networkResponse => ⟨.ok networkResponse, updated, 1⟩
    | .err _ => ⟨.ok createOfflinePage, updated, 1⟩

/-- `isStaticAsset(request)` (part_000, lines 194-207). -/
def isStaticAsset (request : Request) : Bool :=
  request.path = "/" ||
  request.path = "/index.html" ||
  request.path = "/manifest.json" ||
  strEndsWith request.path ".css" ||
  strEndsWith request.path ".js" ||
  strEndsWith request.path ".png" ||
  strEndsWith request.path ".jpg" ||
  strEndsWith request.path ".svg" ||
  strEndsWith request.path ".ico"

/-- `isFont(request)` (part_000, lines 209-219). -/
def isFont (request : Request) : Bool :=
  request.host = "fonts.googleapis.com" ||
  request.host = "fonts.gstatic.com" ||
  strEndsWith request.path ".woff" ||
  strEndsWith request.path ".woff2" ||
  strEndsWith request.path ".ttf" ||
  strEndsWith request.path ".otf"

/-- `isAPIRequest(request)` (part_000, lines 221-226); `selfHost` is
`self.location.hostname`. -/
def isAPIRequest (request : Request) (selfHost : String) : Bool :=
  strStartsWith request.path "/api/" || request.host != selfHost

/-- The spec's request categories (spec section 3): exactly one per request,
chosen in order by the fetch listener's if-chain. -/
inductive Category where
  | StaticAsset
  | Font
  | ApiRequest
  | Other
deriving DecidableEq

/-- The classification performed by the fetch listener's if-chain (part_000,
lines 102-114): `isStaticAsset` first, then `isFont`, then `isAPIRequest`,
default Other. -/
def classify (request : Request) (selfHost : String) : Category :=
  if isStaticAsset request then .StaticAsset
  else if isFont request then .Font
  else if isAPIRequest request selfHost then .ApiRequest
  else .Other

/-- What a fetch listener decides for a request: decline (no `respondWith`,
the request passes through to the network), or respond with a strategy on a
named cache, or respond via the share-target handler. -/
inductive FetchDecision where
  | decline
  | cacheFirst (cacheName : String)
  | networkFirst (cacheName : String)
  | staleWhileRevalidate (cacheName : String)
  | shareTarget
deriving DecidableEq

/-- The main fetch listener (part_000, lines 82-115): declines non-GET
requests, URLs not starting with "http", and chrome-extension URLs; otherwise
dispatches on the classification. -/
def mainFetchListener (request : Request) (selfHost : String) : FetchDecision :=
  if request.method ≠ "GET" then .decline
  else if ¬ strStartsWith request.url "http" then .decline
  else if request.protocol = "chrome-extension:" then .decline
  else
    match classify request selfHost with
    | .StaticAsset => .cacheFirst STATIC_CACHE
    | .Font => .cacheFirst DYNAMIC_CACHE
    | .ApiRequest => .networkFirst DYNAMIC_CACHE
    | .Other => .staleWhileRevalidate DYNAMIC_CACHE

/-- The share-target fetch listener (part_000, lines 438-445): responds to a
POST to "/share-target", declines everything else. -/
def shareTargetListener (request : Request) : FetchDecision :=
  if request.path = "/share-target" ∧ request.method = "POST" then .shareTarget
  else .decline

/-- The engine's overall decision: both listeners run; the first
`respondWith` claims the event, so the share-target listener matters only
when the main listener declined. -/
def handleFetch (request : Request) (selfHost : String) : FetchDecision :=
  match mainFetchListener request selfHost with
  | .decline => shareTargetListener request
  | d => d

/-- `BASE_URL` of the sw.js variant (sw.js, line 7). -/
def swBASE_URL : String := "/native-pwa/"

/-- `DYNAMIC_CACHE` of the sw.js variant (sw.js, line 4). -/
def swDYNAMIC_CACHE : String := "dynamic-v1.0.2"

/-- What the sw.js fetch handler resolves `respondWith` with: a response, or
the catch branch's result (the cached index page if the request accepts
text/html and it is cached, else nothing — `undefined` in the source). -/
inductive SwOutcome where
  | response (r : Response)
  | fallback (cached : Option Response)
deriving DecidableEq

/-- `request.headers.get("accept").includes("text/html")` (sw.js, line 97).
A missing accept header is modelled as not matching. -/
def swAcceptsHtml (request : Request) : Bool :=
  match headerGet request.headers "accept" with
  | some accept => strContains accept "text/html"
  | none => false

/-- The sw.js variant's fetch listener (sw.js, lines 64-103): declines
non-GET and non-"http" URLs; for requests under `BASE_URL` or same-origin it
serves `caches.match(request)`, else fetches and — with NO status check —
puts the fetched response into `DYNAMIC_CACHE` and returns it; if the fetch
rejects, the catch returns the cached index page for text/html requests and
nothing otherwise.  Requests outside the base-URL/origin guard are declined. -/
def swFetchHandler (request : Request) (selfOrigin : String)
    (cs : CacheStorage) (net : NetResult) : Option SwOutcome × CacheStorage :=
  if request.method ≠ "GET" then (none, cs)
  else if ¬ strStartsWith request.url "http" then (none, cs)
  else if strStartsWith request.path swBASE_URL ∨ request.origin = selfOrigin then
    match cachesMatch cs request.url with
    | some response => (some (.response response), cs)
    | none =>
      match net with
      | .ok fetchResponse =>
        (some (.response fetchResponse),
          cachesOpenPut cs swDYNAMIC_CACHE request.url fetchResponse)
      | .err _ =>
        if swAcceptsHtml request then
          (some (.fallback (cachesMatch cs (swBASE_URL ++ "index.html"))), cs)
        else
          (some (.fallback none), cs)
  else (none, cs)

/-- Example request of the concrete test scenarios below: a same-origin
stylesheet request. -/
def exCssRequest : Request :=
  ⟨"GET", "https", "debasish-sai.github.io", "/style.css", "style", []⟩

/-- Example response held by the dynamic cache in the scenarios below. -/
def exOldResponse : Response := ⟨200, "OK", [], "stale dynamic-cache copy"⟩

/-- Example response held by the static cache in the scenarios below. -/
def exNewResponse : Response := ⟨200, "OK", [], "static-cache copy"⟩

/-- Example storage where the dynamic cache (created first) and the static
cache both hold an entry for `exCssRequest`, with different bodies. -/
def exTwoStores : CacheStorage :=
  [(DYNAMIC_CACHE, [(exCssRequest.url, exOldResponse)]),
   (STATIC_CACHE, [(exCssRequest.url, exNewResponse)])]

/-- Example storage where only the static cache holds an entry for
`exCssRequest`. -/
def exStaticOnly : CacheStorage :=
  [(STATIC_CACHE, [(exCssRequest.url, exOldResponse)])]

/-- An entry found after `cachePutIn` is either the response just put or an
entry that was already there. -/
theorem cacheLookup_cachePutIn (c : Cache) (k : String) (r : Response)
    (k' : String) (r' : Response)
    (h : cacheLookup (cachePutIn c k r) k' = some r') :
    r' = r ∨ cacheLookup c k' = some r' := by
  induction c with
  | nil =>
    simp only [cachePutIn, cacheLookup] at h
    split at h
    · exact Or.inl (Option.some.inj h).symm
    · exact absurd h (by simp)
  | cons hd tl ih =>
    obtain ⟨a, b⟩ := hd
    simp only [cachePutIn] at h
    by_cases hak : a = k
    · simp only [hak, if_pos rfl, cacheLookup] at h
      by_cases hkk : k = k'
      · rw [if_pos hkk] at h
        exact Or.inl (Option.some.inj h).symm
      · rw [if_neg hkk] at h
        refine Or.inr ?_
        simp only [cacheLookup, hak]
        rw [if_neg hkk]
        exact h
    · rw [if_neg hak] at h
      simp only [cacheLookup] at h ⊢
      by_cases hak' : a = k'
      · rw [if_pos hak'] at h ⊢
        exact Or.inr h
      · rw [if_neg hak'] at h ⊢
        exact ih h

/-- `cachePutIn` makes the put entry visible under its key. -/
theorem cacheLookup_cachePutIn_self (c : Cache) (k : String) (r : Response) :
    cacheLookup (cachePutIn c k r) k = some r := by
  induction c with
  | nil => simp [cachePutIn, cacheLookup]
  | cons hd tl ih =>
    obtain ⟨a, b⟩ := hd
    simp only [cachePutIn]
    by_cases hak : a = k
    · rw [if_pos hak]
      simp [cacheLookup]
    · rw [if_neg hak]
      simp only [cacheLookup]
      rw [if_neg hak]
      exact ih

/-- An entry found after `cachesOpenPut` is either the response just written
or an entry that was already in the storage. -/
theorem storeLookup_cachesOpenPut (cs : CacheStorage) (n k : String)
    (r : Response) (n' k' : String) (r' : Response)
    (h : storeLookup (cachesOpenPut cs n k r) n' k' = some r') :
    r' = r ∨ storeLookup cs n' k' = some r' := by
  induction cs with
  | nil =>
    simp only [cachesOpenPut, storeLookup] at h
    split at h
    · simp only [cacheLookup] at h
      split at h
      · exact Or.inl (Option.some.inj h).symm
      · exact absurd h (by simp)
    · exact absurd h (by simp)
  | cons hd tl ih =>
    obtain ⟨m, c⟩ := hd
    simp only [cachesOpenPut] at h
    by_cases hmn : m = n
    · subst hmn
      rw [if_pos rfl] at h
      simp only [storeLookup] at h ⊢
      by_cases hmn' : m = n'
      · rw [if_pos hmn'] at h ⊢
        exact cacheLookup_cachePutIn c k r k' r' h
      · rw [if_neg hmn'] at h ⊢
        exact Or.inr h
    · rw [if_neg hmn] at h
      simp only [storeLookup] at h ⊢
      by_cases hmn' : m = n'
      · rw [if_pos hmn'] at h ⊢
        exact Or.inr h
      · rw [if_neg hmn'] at h ⊢
        exact ih h

/-- `cachesOpenPut` makes the written entry visible in the named store. -/
theorem storeLookup_cachesOpenPut_self (cs : CacheStorage) (n k : String)
    (r : Response) :
    storeLookup (cachesOpenPut cs n k r) n k = some r := by
  induction cs with
  | nil => simp [cachesOpenPut, storeLookup, cacheLookup]
  | cons hd tl ih =>
    obtain ⟨m, c⟩ := hd
    simp only [cachesOpenPut]
    by_cases hmn : m = n
    · subst hmn
      rw [if_pos rfl]
      simp only [storeLookup, if_pos rfl]
      exact cacheLookup_cachePutIn_self c k r
    · rw [if_neg hmn]
      simp only [storeLookup]
      rw [if_neg hmn]
      exact ih


/-- Any entry visible after `cacheFirstStrategy` was either already in the
storage or has status 200. -/
theorem cacheFirst_write_status (request : Request) (cacheName : String)
    (cs : CacheStorage) (net : NetResult) (store k : String) (r : Response)
    (h : storeLookup (cacheFirstStrategy request cacheName cs net).caches
      store k = some r) :
    storeLookup cs store k = some r ∨ r.status = 200 := by
  cases hm : cachesMatch cs request.url with
  | some c =>
    simp only [cacheFirstStrategy, hm] at h
    exact Or.inl h
  | none =>
    cases net with
    | ok nr =>
      by_cases h200 : nr.status = 200
      · simp only [cacheFirstStrategy, hm] at h
        rw [if_pos h200] at h
        rcases storeLookup_cachesOpenPut cs cacheName request.url nr store k r h with
          he | hl
        · exact Or.inr (he ▸ h200)
        · exact Or.inl hl
      · simp only [cacheFirstStrategy, hm] at h
        rw [if_neg h200] at h
        exact Or.inl h
    | err e =>
      simp only [cacheFirstStrategy, hm] at h
      by_cases hd : request.destination = "document"
      · rw [if_pos hd] at h
        exact Or.inl h
      · rw [if_neg hd] at h
        exact Or.inl h

/-- Any entry visible after `networkFirstStrategy` was either already in the
storage or has status 200. -/
theorem networkFirst_write_status (request : Request) (cacheName : String)
    (cs : CacheStorage) (net : NetResult) (store k : String) (r : Response)
    (h : storeLookup (networkFirstStrategy request cacheName cs net).caches
      store k = some r) :
    storeLookup cs store k = some r ∨ r.status = 200 := by
  cases net with
  | ok nr =>
    by_cases h200 : nr.status = 200
    · simp only [networkFirstStrategy] at h
      rw [if_pos h200] at h
      rcases storeLookup_cachesOpenPut cs cacheName request.url nr store k r h with
        he | hl
      · exact Or.inr (he ▸ h200)
      · exact Or.inl hl
    · simp only [networkFirstStrategy] at h
      rw [if_neg h200] at h
      exact Or.inl h
  | err e =>
    cases hm : cachesMatch cs request.url with
    | some c =>
      simp only [networkFirstStrategy, hm] at h
      exact Or.inl h
    | none =>
      simp only [networkFirstStrategy, hm] at h
      exact Or.inl h

/-- Any entry visible after `staleWhileRevalidateStrategy` was either already
in the storage or has status 200. -/
theorem swr_write_status (request : Request) (cacheName : String)
    (cs : CacheStorage) (net : NetResult) (store k : String) (r : Response)
    (h : storeLookup (staleWhileRevalidateStrategy request cacheName cs net).caches
      store k = some r) :
    storeLookup cs store k = some r ∨ r.status = 200 := by
  cases net with
  | ok nr =>
    by_cases h200 : nr.status = 200
    · cases hm : cachesMatch cs request.url with
      | some c =>
        simp only [staleWhileRevalidateStrategy, hm] at h
        rw [if_pos h200] at h
        rcases storeLookup_cachesOpenPut cs cacheName request.url nr store k r h with
          he | hl
        · exact Or.inr (he ▸ h200)
        · exact Or.inl hl
      | none =>
        simp only [staleWhileRevalidateStrategy, hm] at h
        rw [if_pos h200] at h
        rcases storeLookup_cachesOpenPut cs cacheName request.url nr store k r h with
          he | hl
        · exact Or.inr (he ▸ h200)
        · exact Or.inl hl
    · cases hm : cachesMatch cs request.url with
      | some c =>
        simp only [staleWhileRevalidateStrategy, hm] at h
        rw [if_neg h200] at h
        exact Or.inl h
      | none =>
        simp only [staleWhileRevalidateStrategy, hm] at h
        rw [if_neg h200] at h
        exact Or.inl h
  | err e =>
    cases hm : cachesMatch cs request.url with
    | some c =>
      simp only [staleWhileRevalidateStrategy, hm] at h
      exact Or.inl h
    | none =>
      simp only [staleWhileRevalidateStrategy, hm] at h
      exact Or.inl h

set_option maxRecDepth 40000 in
/-- The offline page body contains the "You're Offline" heading. -/
theorem offline_body_marker :
    strContains createOfflinePage.body "You\x27re Offline" = true := by decide

set_option maxRecDepth 40000 in
/-- The offline page body contains the "Try Again" retry affordance. -/
theorem offline_body_retry :
    strContains createOfflinePage.body "Try Again" = true := by decide

/-- Claim C1, counterexample: the claim as stated is false. The lookup in
`cacheFirstStrategy` is the global `caches.match`, which searches the caches
in creation order, not the named store. Here the named static store contains
`exNewResponse` for the request's key, yet the strategy returns the dynamic
store's `exOldResponse`, because the dynamic cache was created first. -/
theorem cacheFirst_named_store_shadowed_cx :
    storeLookup exTwoStores STATIC_CACHE exCssRequest.url = some exNewResponse ∧
    (cacheFirstStrategy exCssRequest STATIC_CACHE exTwoStores
      (.err "offline")).resp = .ok exOldResponse ∧
    exOldResponse ≠ exNewResponse := by decide

/-- Claim C1 (amended): for every request and store name, if ANY cache store
contains an entry for the request's key, `cacheFirstStrategy` returns the
first matching cached response in store-creation order (the lookup is a
global `caches.match`, not restricted to the named store) immediately,
performs zero network fetches, and leaves the storage unchanged; in
particular, when only the named store holds the key, its entry is returned. -/
theorem cacheFirst_hit_returns_cached (request : Request) (cacheName : String)
    (cs : CacheStorage) (net : NetResult) (r : Response)
    (h : cachesMatch cs request.url = some r) :
    (cacheFirstStrategy request cacheName cs net).resp = .ok r ∧
    (cacheFirstStrategy request cacheName cs net).netCalls = 0 ∧
    (cacheFirstStrategy request cacheName cs net).caches = cs := by
  simp [cacheFirstStrategy, h]

/-- Claim C1, witness: on a storage whose first-created cache holds the key,
a cache-first request returns that entry with zero network fetches. -/
theorem cacheFirst_hit_returns_cached_witness :
    cachesMatch exTwoStores exCssRequest.url = some exOldResponse ∧
    ((cacheFirstStrategy exCssRequest STATIC_CACHE exTwoStores
        (.err "offline")).resp = .ok exOldResponse ∧
      (cacheFirstStrategy exCssRequest STATIC_CACHE exTwoStores
        (.err "offline")).netCalls = 0 ∧
      (cacheFirstStrategy exCssRequest STATIC_CACHE exTwoStores
        (.err "offline")).caches = exTwoStores) :=
  ⟨by decide,
   cacheFirst_hit_returns_cached exCssRequest STATIC_CACHE exTwoStores
     (.err "offline") exOldResponse (by decide)⟩

/-- Claim C2, counterexample: the claim as stated ("in every source variant")
is false. The sw.js variant's inline handler puts the fetched response into
the dynamic cache with no status check: here a 404 response is written. -/
theorem sw_variant_caches_non_200_cx :
    storeLookup
      (swFetchHandler
        ⟨"GET", "https", "debasish-sai.github.io", "/native-pwa/data.json", "", []⟩
        "https://debasish-sai.github.io" [] (.ok ⟨404, "Not Found", [], "missing"⟩)).2
      swDYNAMIC_CACHE "https://debasish-sai.github.io/native-pwa/data.json"
      = some ⟨404, "Not Found", [], "missing"⟩ ∧
    (404 : Nat) ≠ 200 := by decide

/-- Claim C2 (amended): in the main variant, every entry written into a cache
store by any of the three strategies (cache-first, network-first,
stale-while-revalidate) has status exactly 200 — any entry visible afterwards
either was already present or has status 200. The sw.js variant's inline
handler, by contrast, writes fetched responses of any status. -/
theorem strategies_write_only_status_200 (request : Request)
    (cacheName : String) (cs : CacheStorage) (net : NetResult)
    (store k : String) (r : Response) :
    (storeLookup (cacheFirstStrategy request cacheName cs net).caches store k
        = some r →
      storeLookup cs store k = some r ∨ r.status = 200) ∧
    (storeLookup (networkFirstStrategy request cacheName cs net).caches store k
        = some r →
      storeLookup cs store k = some r ∨ r.status = 200) ∧
    (storeLookup (staleWhileRevalidateStrategy request cacheName cs net).caches
        store k = some r →
      storeLookup cs store k = some r ∨ r.status = 200) :=
  ⟨cacheFirst_write_status request cacheName cs net store k r,
   networkFirst_write_status request cacheName cs net store k r,
   swr_write_status request cacheName cs net store k r⟩

/-- Claim C2, witness: a cache-first miss answered 200 yields a stored entry,
and the entry indeed satisfies the disjunction (its status is 200). -/
theorem strategies_write_only_status_200_witness :
    storeLookup
      (cacheFirstStrategy exCssRequest STATIC_CACHE []
        (.ok ⟨200, "OK", [], "fresh body"⟩)).caches
      STATIC_CACHE exCssRequest.url = some ⟨200, "OK", [], "fresh body"⟩ ∧
    (storeLookup ([] : CacheStorage) STATIC_CACHE exCssRequest.url
        = some ⟨200, "OK", [], "fresh body"⟩ ∨
      Response.status ⟨200, "OK", [], "fresh body"⟩ = 200) :=
  ⟨by decide,
   (strategies_write_only_status_200 exCssRequest STATIC_CACHE []
     (.ok ⟨200, "OK", [], "fresh body"⟩) STATIC_CACHE exCssRequest.url
     ⟨200, "OK", [], "fresh body"⟩).1 (by decide)⟩

/-- Claim C3: on a cache miss (the global lookup finds nothing) with a failed
fetch, `cacheFirstStrategy` returns the offline page — whose body contains
"You're Offline" — when the request's destination is "document", and
otherwise the synthesized 503 "Service Unavailable" response. -/
theorem cacheFirst_total_failure_fallback (request : Request)
    (cacheName : String) (cs : CacheStorage) (e : String)
    (h : cachesMatch cs request.url = none) :
    (request.destination = "document" →
      (cacheFirstStrategy request cacheName cs (.err e)).resp
        = .ok createOfflinePage ∧
      strContains createOfflinePage.body "You\x27re Offline" = true) ∧
    (request.destination ≠ "document" →
      (cacheFirstStrategy request cacheName cs (.err e)).resp
        = .ok ⟨503, "Service Unavailable", [], "Offline"⟩ ∧
      Response.status ⟨503, "Service Unavailable", [], "Offline"⟩ = 503) := by
  constructor
  · intro hd
    constructor
    · simp only [cacheFirstStrategy, h]
      rw [if_pos hd]
    · exact offline_body_marker
  · intro hd
    constructor
    · simp only [cacheFirstStrategy, h]
      rw [if_neg hd]
    · rfl

/-- Claim C3, witness: an offline navigation request with an empty cache
storage receives the offline page. -/
theorem cacheFirst_total_failure_fallback_witness :
    (cachesMatch [] (Request.url
        ⟨"GET", "https", "debasish-sai.github.io", "/native-pwa/", "document", []⟩)
      = none ∧
     Request.destination
        ⟨"GET", "https", "debasish-sai.github.io", "/native-pwa/", "document", []⟩
      = "document") ∧
    ((cacheFirstStrategy
        ⟨"GET", "https", "debasish-sai.github.io", "/native-pwa/", "document", []⟩
        STATIC_CACHE [] (.err "offline")).resp = .ok createOfflinePage ∧
     strContains createOfflinePage.body "You\x27re Offline" = true) :=
  ⟨⟨by decide, by decide⟩,
   (cacheFirst_total_failure_fallback
     ⟨"GET", "https", "debasish-sai.github.io", "/native-pwa/", "document", []⟩
     STATIC_CACHE [] "offline" (by decide)).1 (by decide)⟩

/-- Claim C4, counterexample: the claim as stated is false in both halves,
because the fallback lookup is the global `caches.match`, not a lookup of the
named store. First half: the named static store holds `exNewResponse`, yet
the first-created dynamic store's `exOldResponse` is returned. Second half:
the named dynamic store holds nothing, yet instead of re-throwing the error
the strategy returns the static store's entry. -/
theorem networkFirst_fallback_not_named_store_cx :
    (storeLookup exTwoStores STATIC_CACHE exCssRequest.url = some exNewResponse ∧
     (networkFirstStrategy exCssRequest STATIC_CACHE exTwoStores
        (.err "net down")).resp = .ok exOldResponse ∧
     exOldResponse ≠ exNewResponse) ∧
    (storeLookup exStaticOnly DYNAMIC_CACHE exCssRequest.url = none ∧
     (networkFirstStrategy exCssRequest DYNAMIC_CACHE exStaticOnly
        (.err "net down")).resp ≠ .error "net down") := by decide

/-- Claim C4 (amended): when the network fetch throws, `networkFirstStrategy`
returns verbatim the first cached copy found by the global `caches.match`
across all stores (not specifically the named store), leaving the storage
unchanged; only when no store holds the key does it re-throw the network
error to the caller, synthesizing no fallback. -/
theorem networkFirst_failure_handling (request : Request) (cacheName : String)
    (cs : CacheStorage) (e : String) :
    (∀ r : Response, cachesMatch cs request.url = some r →
      (networkFirstStrategy request cacheName cs (.err e)).resp = .ok r ∧
      (networkFirstStrategy request cacheName cs (.err e)).caches = cs) ∧
    (cachesMatch cs request.url = none →
      (networkFirstStrategy request cacheName cs (.err e)).resp = .error e ∧
      (networkFirstStrategy request cacheName cs (.err e)).caches = cs) := by
  constructor
  · intro r h
    simp [networkFirstStrategy, h]
  · intro h
    simp [networkFirstStrategy, h]

/-- Claim C4, witness: with the key cached only in the static store, a failed
network-first request returns that cached copy. -/
theorem networkFirst_failure_handling_witness :
    cachesMatch exStaticOnly exCssRequest.url = some exOldResponse ∧
    ((networkFirstStrategy exCssRequest DYNAMIC_CACHE exStaticOnly
        (.err "net down")).resp = .ok exOldResponse ∧
     (networkFirstStrategy exCssRequest DYNAMIC_CACHE exStaticOnly
        (.err "net down")).caches = exStaticOnly) :=
  ⟨by decide,
   (networkFirst_failure_handling exCssRequest DYNAMIC_CACHE exStaticOnly
     "net down").1 exOldResponse (by decide)⟩

/-- Claim C5: if a cached copy exists, `staleWhileRevalidateStrategy` returns
it whatever the network outcome is (so it does not wait on the fetch — the
returned response is independent of how, and whether, the fetch settles); if
no cached copy exists and the fetch fails, it returns the offline page. -/
theorem swr_cached_immediate_or_offline (request : Request)
    (cacheName : String) (cs : CacheStorage) :
    (∀ (net : NetResult) (r : Response), cachesMatch cs request.url = some r →
      (staleWhileRevalidateStrategy request cacheName cs net).resp = .ok r) ∧
    (∀ e : String, cachesMatch cs request.url = none →
      (staleWhileRevalidateStrategy request cacheName cs (.err e)).resp
        = .ok createOfflinePage) := by
  constructor
  · intro net r h
    simp [staleWhileRevalidateStrategy, h]
  · intro e h
    simp [staleWhileRevalidateStrategy, h]

/-- Claim C5, witness: a cached entry is returned even while the network
fails, and with an empty storage a failed fetch yields the offline page. -/
theorem swr_cached_immediate_or_offline_witness :
    cachesMatch exStaticOnly exCssRequest.url = some exOldResponse ∧
    (staleWhileRevalidateStrategy exCssRequest DYNAMIC_CACHE exStaticOnly
      (.err "net down")).resp = .ok exOldResponse :=
  ⟨by decide,
   (swr_cached_immediate_or_offline exCssRequest DYNAMIC_CACHE exStaticOnly).1
     (.err "net down") exOldResponse (by decide)⟩

/-- Claim C6: on a cache miss, a fetch that succeeds with status exactly 200
has its response written into the named store and returned; a fetch that
succeeds with any other status has its response returned as-is with the
storage untouched. -/
theorem cacheFirst_miss_write_through (request : Request) (cacheName : String)
    (cs : CacheStorage) (r : Response)
    (h : cachesMatch cs request.url = none) :
    (r.status = 200 →
      (cacheFirstStrategy request cacheName cs (.ok r)).resp = .ok r ∧
      storeLookup (cacheFirstStrategy request cacheName cs (.ok r)).caches
        cacheName request.url = some r) ∧
    (r.status ≠ 200 →
      (cacheFirstStrategy request cacheName cs (.ok r)).resp = .ok r ∧
      (cacheFirstStrategy request cacheName cs (.ok r)).caches = cs) := by
  constructor
  · intro h200
    constructor
    · simp [cacheFirstStrategy, h, h200]
    · simp only [cacheFirstStrategy, h]
      rw [if_pos h200]
      exact storeLookup_cachesOpenPut_self cs cacheName request.url r
  · intro h200
    constructor
    · simp [cacheFirstStrategy, h, h200]
    · simp only [cacheFirstStrategy, h]
      rw [if_neg h200]

/-- Claim C6, witness: a miss answered 200 populates the named store and the
response is returned; the same request answered 404 writes nothing. -/
theorem cacheFirst_miss_write_through_witness :
    (cachesMatch [] exCssRequest.url = none ∧
     Response.status ⟨200, "OK", [], "fresh body"⟩ = 200) ∧
    ((cacheFirstStrategy exCssRequest STATIC_CACHE []
        (.ok ⟨200, "OK", [], "fresh body"⟩)).resp = .ok ⟨200, "OK", [], "fresh body"⟩ ∧
     storeLookup (cacheFirstStrategy exCssRequest STATIC_CACHE []
        (.ok ⟨200, "OK", [], "fresh body"⟩)).caches STATIC_CACHE exCssRequest.url
       = some ⟨200, "OK", [], "fresh body"⟩) :=
  ⟨⟨by decide, by decide⟩,
   (cacheFirst_miss_write_through exCssRequest STATIC_CACHE []
     ⟨200, "OK", [], "fresh body"⟩ (by decide)).1 (by decide)⟩

/-- Claim C7, counterexample: the claim as stated is false. A cross-origin
request whose path ends in ".css" is classified StaticAsset, not ApiRequest,
because the fetch listener tests `isStaticAsset` before `isAPIRequest`. -/
theorem cross_origin_css_static_cx :
    strEndsWith "/theme.css" ".css" = true ∧
    "cdn.example.com" ≠ "debasish-sai.github.io" ∧
    classify ⟨"GET", "https", "cdn.example.com", "/theme.css", "style", []⟩
      "debasish-sai.github.io" = Category.StaticAsset ∧
    Category.StaticAsset ≠ Category.ApiRequest := by decide

/-- Claim C7 (amended): every request whose URL path ends in ".css" — whatever
its host — is assigned category StaticAsset, because the static-extension
rule is checked before the cross-origin ApiRequest rule; so a cross-origin
stylesheet is StaticAsset, not ApiRequest. -/
theorem css_classifies_static (request : Request) (selfHost : String)
    (h : strEndsWith request.path ".css" = true) :
    classify request selfHost = Category.StaticAsset := by
  have hs : isStaticAsset request = true := by
    unfold isStaticAsset
    rw [h]
    simp
  simp [classify, hs]

/-- Claim C7, witness: a cross-origin stylesheet request classifies as
StaticAsset. -/
theorem css_classifies_static_witness :
    strEndsWith
      (Request.path ⟨"GET", "https", "cdn.example.com", "/vendor.css", "style", []⟩)
      ".css" = true ∧
    classify ⟨"GET", "https", "cdn.example.com", "/vendor.css", "style", []⟩
      "debasish-sai.github.io" = Category.StaticAsset :=
  ⟨by decide,
   css_classifies_static ⟨"GET", "https", "cdn.example.com", "/vendor.css", "style", []⟩
     "debasish-sai.github.io" (by decide)⟩

/-- Claim C8, counterexample: the claim as stated is false. First: a POST to
"/share-target" is not declined — the share-target listener responds to it.
Second: a scheme that merely starts with "http" without being http(s)
(here "httpx") also is not declined, since the guard is a string-prefix test
on the URL, not a scheme whitelist. -/
theorem decline_rule_cx :
    (Request.method
        ⟨"POST", "https", "debasish-sai.github.io", "/share-target", "", []⟩
      ≠ "GET" ∧
     handleFetch ⟨"POST", "https", "debasish-sai.github.io", "/share-target", "", []⟩
       "debasish-sai.github.io" = FetchDecision.shareTarget ∧
     FetchDecision.shareTarget ≠ FetchDecision.decline) ∧
    (Request.scheme ⟨"GET", "httpx", "host.example", "/x", "", []⟩ ≠ "http" ∧
     Request.scheme ⟨"GET", "httpx", "host.example", "/x", "", []⟩ ≠ "https" ∧
     handleFetch ⟨"GET", "httpx", "host.example", "/x", "", []⟩ "host.example"
       = FetchDecision.staleWhileRevalidate DYNAMIC_CACHE ∧
     FetchDecision.staleWhileRevalidate DYNAMIC_CACHE ≠ FetchDecision.decline) := by
  decide

/-- Claim C8 (amended): every request whose method is not GET, or whose URL
does not start with "http", is declined by the main caching listener; the
engine's overall decision then equals the share-target listener's, which
responds (with the share-target handler) exactly to a POST to
"/share-target" and declines everything else. -/
theorem decline_rule_amended (request : Request) (selfHost : String)
    (h : request.method ≠ "GET" ∨ strStartsWith request.url "http" = false) :
    handleFetch request selfHost = shareTargetListener request ∧
    (¬(request.path = "/share-target" ∧ request.method = "POST") →
      handleFetch request selfHost = .decline) := by
  have hm : mainFetchListener request selfHost = .decline := by
    rcases h with h | h
    · unfold mainFetchListener
      rw [if_pos h]
    · by_cases hg : request.method ≠ "GET"
      · unfold mainFetchListener
        rw [if_pos hg]
      · unfold mainFetchListener
        rw [if_neg hg, if_pos (by simp [h])]
  constructor
  · unfold handleFetch
    rw [hm]
  · intro hn
    unfold handleFetch
    rw [hm]
    unfold shareTargetListener
    rw [if_neg hn]

/-- Claim C8, witness: a DELETE request is declined by the whole engine. -/
theorem decline_rule_amended_witness :
    Request.method ⟨"DELETE", "https", "debasish-sai.github.io", "/index.html", "", []⟩
      ≠ "GET" ∧
    handleFetch ⟨"DELETE", "https", "debasish-sai.github.io", "/index.html", "", []⟩
      "debasish-sai.github.io" = FetchDecision.decline :=
  ⟨by decide,
   (decline_rule_amended
     ⟨"DELETE", "https", "debasish-sai.github.io", "/index.html", "", []⟩
     "debasish-sai.github.io" (Or.inl (by decide))).2 (by decide)⟩

/-- Claim C9: `createOfflinePage` is a fixed value (hence deterministic and
never failing) with status 200, Content-Type text/html, Cache-Control
no-cache, and a body containing the "You're Offline" message and the
"Try Again" retry affordance; and it is never written into any cache store by
any strategy — on a failed fetch (the only situation in which a strategy
produces the offline page) every strategy returns the storage unchanged. -/
theorem offline_page_contract :
    createOfflinePage.status = 200 ∧
    headerGet createOfflinePage.headers "Content-Type" = some "text/html" ∧
    headerGet createOfflinePage.headers "Cache-Control" = some "no-cache" ∧
    strContains createOfflinePage.body "You\x27re Offline" = true ∧
    strContains createOfflinePage.body "Try Again" = true ∧
    ∀ (request : Request) (cacheName : String) (cs : CacheStorage) (e : String),
      (cacheFirstStrategy request cacheName cs (.err e)).caches = cs ∧
      (networkFirstStrategy request cacheName cs (.err e)).caches = cs ∧
      (staleWhileRevalidateStrategy request cacheName cs (.err e)).caches = cs := by
  refine ⟨rfl, rfl, rfl, offline_body_marker, offline_body_retry, ?_⟩
  intro request cacheName cs e
  refine ⟨?_, ?_, ?_⟩
  · cases hm : cachesMatch cs request.url with
    | some c => simp [cacheFirstStrategy, hm]
    | none =>
      simp only [cacheFirstStrategy, hm]
      split <;> rfl
  · cases hm : cachesMatch cs request.url with
    | some c => simp [networkFirstStrategy, hm]
    | none => simp [networkFirstStrategy, hm]
  · cases hm : cachesMatch cs request.url with
    | some c => simp [staleWhileRevalidateStrategy, hm]
    | none => simp [staleWhileRevalidateStrategy, hm]

/-- Claim C10: for every request, cache state and network outcome — success
with any status or failure — `staleWhileRevalidateStrategy` settles with a
response (an `Except.ok`) and never re-throws; `networkFirstStrategy`, by
contrast, can re-throw, as the concrete second conjunct shows. -/
theorem swr_always_settles (request : Request) (cacheName : String)
    (cs : CacheStorage) (net : NetResult) :
    (∃ r : Response,
      (staleWhileRevalidateStrategy request cacheName cs net).resp = .ok r) ∧
    (networkFirstStrategy ⟨"GET", "https", "api.example.com", "/api/data", "", []⟩
      DYNAMIC_CACHE [] (.err "net down")).resp = .error "net down" := by
  constructor
  · cases hm : cachesMatch cs request.url with
    | some r => exact ⟨r, by simp [staleWhileRevalidateStrategy, hm]⟩
    | none =>
      cases net with
      | ok nr => exact ⟨nr, by simp [staleWhileRevalidateStrategy, hm]⟩
      | err e =>
        exact ⟨createOfflinePage, by simp [staleWhileRevalidateStrategy, hm]⟩
  · decide
